import Mathlib

/-!
Verification development for the dograh workflow-editor core: the graph
model, validation engine, layered layout, and the dirty/save orchestration
contract.  Data types are embedded from `src/ui/src/components/flow/types`
(part_005); UI-level logic from `WorkflowEditorHeader` (part_011),
`RenderWorkflow.tsx`, `EndCall.tsx` and the workflow detail page (part_014).
Components of the engine whose implementation is not in the source tree
(validation, `layoutNodes`, the save orchestrator hook, `useNodeHandlers`)
are modelled from the specification, as marked in their doc comments.

Numeric coordinates (TypeScript `number`) are modelled as `Int`; none of the
verified properties depend on fractional values.
-/

namespace Dograh

/-- Kind tags of nodes, from `enum NodeType` in part_005.  The string values
are the `type` field of a flow node. -/
def NodeTypeStartCall : String := "startCall"

def NodeTypeAgentNode : String := "agentNode"

def NodeTypeEndCall : String := "endCall"

def NodeTypeGlobalNode : String := "globalNode"

def NodeTypeTrigger : String := "trigger"

def NodeTypeWebhook : String := "webhook"

/-- `ExtractionVariable` from part_005: `{name, type ∈ {string,number,boolean}, prompt?}`. -/
structure ExtractionVariable where
  name : String
  type : String       -- one of "string" | "number" | "boolean"
  prompt : Option String
deriving Repr, DecidableEq

/-- `retry_config` of a webhook node, from part_005. -/
structure RetryConfig where
  enabled : Bool
  max_retries : Nat
  retry_delay_seconds : Nat
deriving Repr, DecidableEq

/-- `FlowNodeData` from part_005.  Optional TypeScript fields are `Option`;
`payload_template : Record<string, unknown>` is modelled as a key/value list. -/
structure FlowNodeData where
  prompt : String
  name : String
  is_start : Option Bool := none
  is_static : Option Bool := none
  is_end : Option Bool := none
  invalid : Option Bool := none
  validationMessage : Option String := none
  allow_interrupt : Option Bool := none
  extraction_enabled : Option Bool := none
  extraction_prompt : Option String := none
  extraction_variables : Option (List ExtractionVariable) := none
  call_tags_enabled : Option Bool := none
  call_tags_prompt : Option String := none
  add_global_prompt : Option Bool := none
  wait_for_user_greeting : Option Bool := none
  detect_voicemail : Option Bool := none
  delayed_start : Option Bool := none
  delayed_start_duration : Option Nat := none
  trigger_path : Option String := none
  enabled : Option Bool := none
  http_method : Option String := none
  endpoint_url : Option String := none
  credential_uuid : Option String := none
  custom_headers : Option (List (String × String)) := none
  payload_template : Option (List (String × String)) := none
  retry_config : Option RetryConfig := none
  tool_uuids : Option (List String) := none
  document_uuids : Option (List String) := none
deriving Repr, DecidableEq

/-- Node position, `{x, y}` (TypeScript `number`, modelled as `Int`). -/
structure Position where
  x : Int
  y : Int
deriving Repr, DecidableEq

/-- `FlowNode` from part_005. -/
structure FlowNode where
  id : String
  type : String
  position : Position
  data : FlowNodeData
deriving Repr, DecidableEq

/-- `FlowEdgeData` from part_005. -/
structure FlowEdgeData where
  condition : String
  label : String
  invalid : Option Bool := none
  validationMessage : Option String := none
deriving Repr, DecidableEq

/-- `FlowEdge` from part_005. -/
structure FlowEdge where
  id : String
  source : String
  target : String
  data : FlowEdgeData
deriving Repr, DecidableEq

/-- Canvas viewport `{x, y, zoom}`. -/
structure Viewport where
  x : Int
  y : Int
  zoom : Int
deriving Repr, DecidableEq

/-- `WorkflowDefinition` from part_005: the persisted graph unit. -/
structure WorkflowDefinition where
  nodes : List FlowNode
  edges : List FlowEdge
  viewport : Viewport
deriving Repr, DecidableEq

/-- Scope tag of a validation error, from `WorkflowValidationError.kind`
in part_005: `'node' | 'edge' | 'workflow'`. -/
inductive ErrorKind where
  | node
  | edge
  | workflow
deriving Repr, DecidableEq

/-- `WorkflowValidationError` from part_005:
`{ kind: node|edge|workflow, id: string, field: string, message: string }`. -/
structure WorkflowValidationError where
  kind : ErrorKind
  id : String
  field : String
  message : String
deriving Repr, DecidableEq

/-! ## Workflow editor header (part_011) -/

/-- `hasValidationErrors` from part_011 line 49:
`workflowValidationErrors.length > 0`. -/
def hasValidationErrors (workflowValidationErrors : List WorkflowValidationError) : Bool :=
  workflowValidationErrors.length > 0

/-- `isCallDisabled` from part_011 line 50: `isDirty || hasValidationErrors`.
The Call button is rendered with `disabled={isCallDisabled}` (line 162). -/
def isCallDisabled (isDirty : Bool)
    (workflowValidationErrors : List WorkflowValidationError) : Bool :=
  isDirty || hasValidationErrors workflowValidationErrors

/-- The Save button in part_011 line 195 is rendered with
`disabled={!isDirty || savingWorkflow}`. -/
def isSaveDisabled (isDirty savingWorkflow : Bool) : Bool :=
  !isDirty || savingWorkflow

/-- Local state of the editor header (part_011): the `savingWorkflow` flag
set by `handleSave` around the awaited `saveWorkflow()` call, together with
the number of persistence calls currently in flight (a ghost counter: the
`await saveWorkflow()` of part_011 line 54 is the only persistence call this
component issues). -/
structure HeaderState where
  isDirty : Bool
  savingWorkflow : Bool
  inFlight : Nat
deriving Repr, DecidableEq

/-- Events observable at the header: the user clicks Save (a save request),
or the awaited `saveWorkflow()` promise resolves.  `dirtyChange b` models the
parent updating the `isDirty` prop. -/
inductive HeaderEvent where
  | clickSave
  | saveResolved
  | dirtyChange (b : Bool)
deriving Repr, DecidableEq

/-- One step of the header save machine, from part_011.  A click on the Save
button is a no-op while `disabled={!isDirty || savingWorkflow}` holds
(line 195); otherwise `handleSave` (lines 52-56) sets `savingWorkflow` and
issues exactly one persistence call, which resolves with `saveResolved`. -/
def headerStep (s : HeaderState) (e : HeaderEvent) : HeaderState :=
  match e with
  | .clickSave =>
      if isSaveDisabled s.isDirty s.savingWorkflow then s
      else { s with savingWorkflow := true, inFlight := s.inFlight + 1 }
  | .saveResolved =>
      if s.savingWorkflow then
        { s with savingWorkflow := false, inFlight := s.inFlight - 1 }
      else s
  | .dirtyChange b => { s with isDirty := b }

/-- Run the header machine over a list of events. -/
def headerRun (s : HeaderState) (es : List HeaderEvent) : HeaderState :=
  es.foldl headerStep s

/-- The header's initial state: `useState(false)` for `savingWorkflow`
(part_011 line 47), no persistence call in flight. -/
def headerInit (isDirty : Bool) : HeaderState :=
  { isDirty := isDirty, savingWorkflow := false, inFlight := 0 }

/-! ## End Call node edit dialog (EndCall.tsx) -/

/-- The form state of the End Call edit dialog (EndCall.tsx lines 49-59). -/
structure EndCallForm where
  prompt : String
  name : String
  extractionEnabled : Bool
  extractionPrompt : String
  extractionVariables : List ExtractionVariable
  callTagsEnabled : Bool
  callTagsPrompt : String
  addGlobalPrompt : Bool
deriving Repr, DecidableEq

/-- `handleSave` of EndCall.tsx (lines 69-87): the node data passed to
`handleSaveNodeData` is the spread of the previous `data` with the edited
fields, and `allow_interrupt: false` unconditionally. -/
def endCallHandleSave (data : FlowNodeData) (form : EndCallForm) : FlowNodeData :=
  { data with
    prompt := form.prompt
    name := form.name
    allow_interrupt := some false
    extraction_enabled := some form.extractionEnabled
    extraction_prompt := some form.extractionPrompt
    extraction_variables := some form.extractionVariables
    call_tags_enabled := some form.callTagsEnabled
    call_tags_prompt := some form.callTagsPrompt
    add_global_prompt := some form.addGlobalPrompt }

/-! ## Workflow detail page (part_014) -/

/-- The relevant fields of a `WorkflowResponse` as consumed by the detail
page (part_014): the stored name and workflow definition. -/
structure WorkflowResponse where
  id : Nat
  name : String
  workflow_definition : WorkflowDefinition
deriving Repr, DecidableEq

/-- The `initialFlow` prop built by `WorkflowDetailPage` (part_014 lines
78-82): nodes and edges are taken from the persisted definition, while the
viewport is the literal `{ x: 0, y: 0, zoom: 0 }`. -/
def workflowDetailInitialFlow (w : WorkflowResponse) : WorkflowDefinition :=
  { nodes := w.workflow_definition.nodes
    edges := w.workflow_definition.edges
    viewport := { x := 0, y := 0, zoom := 0 } }

/-! ## Graph model mutations -/

/-- Modelled from the spec: `deleteNode(id)` of §4.1 — the implementation
(`useNodeHandlers.handleDeleteNode`, reached from the node toolbars such as
EndCall.tsx lines 42-45 and 142) is not in the source tree.  Per the spec it
removes the node and "must also delete all edges referencing it — cascading
delete, no orphan edges"; it is a no-op on the nodes when the id is absent. -/
def deleteNode (g : WorkflowDefinition) (id : String) : WorkflowDefinition :=
  { g with
    nodes := g.nodes.filter (fun n => n.id != id)
    edges := g.edges.filter (fun e => e.source != id && e.target != id) }

/-! ## Layout engine

Modelled from the spec (§4.4): the implementation
(`src/ui/src/app/workflow/[workflowId]/utils/layoutNodes`) is not in the
source tree; `RenderWorkflow.tsx` line 334 invokes it as
`layoutNodes(nodes, edges, 'TB', rfInstance)` from the Tidy Up button. -/

/-- Horizontal spacing between siblings in a layer: a fixed configuration
constant per the spec ("space is a configuration constant, not computed
per-call"). -/
def NODE_X_SPACING : Int := 250

/-- Vertical spacing between layers (top-to-bottom). -/
def NODE_Y_SPACING : Int := 150

/-- Successor node ids of `u` along the edges. -/
def succs (edges : List FlowEdge) (u : String) : List String :=
  (edges.filter (fun e => e.source == u)).map (fun e => e.target)

/-- Modelled from the spec: breadth-first layers over the edges starting
from the current frontier, skipping already-visited ids (§4.4 and glossary:
"node placement by BFS/longest-path distance from the start node").  `fuel`
bounds the iteration; `fuel = nodes.length + 1` suffices since each
non-empty level visits at least one new node. -/
def bfsLevels (edges : List FlowEdge) :
    Nat → List String → List String → List (List String)
  | 0, _, _ => []
  | _ + 1, [], _ => []
  | fuel + 1, frontier, visited =>
      let visited' := visited ++ frontier
      let next :=
        (((frontier.flatMap (succs edges)).filter
            (fun v => !(visited'.contains v)))).dedup
      frontier :: bfsLevels edges fuel next visited'

/-- The BFS layers of a graph: levels of ids at increasing distance from the
start node (the first node whose `type` is `startCall`); empty when there is
no start node. -/
def levelsOf (nodes : List FlowNode) (edges : List FlowEdge) : List (List String) :=
  match (nodes.find? (fun n => n.type == NodeTypeStartCall)).map (fun n => n.id) with
  | none => []
  | some s => bfsLevels edges (nodes.length + 1) [s] []

/-- The layer index of a node id: its BFS level, or the overflow layer
(one past all reachable layers) when unreachable from start (§4.4: "Nodes
unreachable from start are placed in an overflow layer below all reachable
layers"). -/
def layerOf (levels : List (List String)) (id : String) : Nat :=
  (levels.findIdx? (fun lvl => lvl.contains id)).getD levels.length

/-- Position assigned to a node id by the layered layout: `y` is the layer
index times the layer spacing (top-to-bottom) and `x` spreads the siblings
of the same layer (in the order the nodes appear in the graph) by the fixed
horizontal spacing. -/
def layoutPos (ids : List String) (levels : List (List String)) (id : String) : Position :=
  let layer := layerOf levels id
  let sibs := ids.filter (fun i => layerOf levels i == layer)
  { x := (sibs.indexOf id : Int) * NODE_X_SPACING
    y := (layer : Int) * NODE_Y_SPACING }

/-- Apply a position assignment to every node, leaving every other field
unchanged. -/
def applyLayout (p : String → Position) (nodes : List FlowNode) : List FlowNode :=
  nodes.map (fun n => { n with position := p n.id })

/-- Modelled from the spec: `layoutNodes` (§4.4) — a layered top-to-bottom
arrangement by BFS distance from the start node.  It "only assigns
`position`; it never changes node/edge identity or config". -/
def layoutNodes (nodes : List FlowNode) (edges : List FlowEdge) : List FlowNode :=
  applyLayout (layoutPos (nodes.map (fun m => m.id)) (levelsOf nodes edges)) nodes

/-! ## Validation engine

Modelled from the spec (§4.3): the validation implementation is not in the
source tree; its output type `WorkflowValidationError` is declared in
part_005 and consumed by the header (part_011).  The rule set and the
ordering (workflow-scope first, then by node id ascending, then by edge id
ascending) follow §4.3; the violation messages quoted by the spec ("no
start node", "multiple start nodes") are used verbatim. -/

def msgNoStart : String := "no start node"

def msgMultipleStart : String := "multiple start nodes"

def msgNoEnd : String := "no end node"

def msgDuplicateId : String := "duplicate node id"

def msgDanglingEdge : String := "edge references a missing node"

def msgUnreachable : String := "node not reachable from start"

def msgMissingPrompt : String := "prompt is required"

def msgInvalidUrl : String := "webhook URL must be a valid absolute URL"

def msgBadVariable : String := "extraction variable needs a non-blank name and a valid type"

def msgEmptyCondition : String := "edge condition should not be empty"

/-- A workflow-scope violation (advisory report, not an exception). -/
def mkWorkflowError (id message : String) : WorkflowValidationError :=
  { kind := .workflow, id := id, field := "", message := message }

/-- A node-scope violation. -/
def mkNodeError (id field message : String) : WorkflowValidationError :=
  { kind := .node, id := id, field := field, message := message }

/-- An edge-scope violation. -/
def mkEdgeError (id field message : String) : WorkflowValidationError :=
  { kind := .edge, id := id, field := field, message := message }

/-- The ids of the nodes of a graph, in graph order. -/
def nodeIds (nodes : List FlowNode) : List String := nodes.map (fun n => n.id)

/-- Number of `start`-kind nodes. -/
def startCount (nodes : List FlowNode) : Nat :=
  (nodes.filter (fun n => n.type == NodeTypeStartCall)).length

/-- Number of `end`-kind nodes. -/
def endCount (nodes : List FlowNode) : Nat :=
  (nodes.filter (fun n => n.type == NodeTypeEndCall)).length

/-- Node ids occurring more than once, each reported once. -/
def duplicateIds (nodes : List FlowNode) : List String :=
  (nodeIds nodes).dedup.filter (fun i => (nodeIds nodes).count i > 1)

/-- Workflow-scope structural violations (§4.3): exactly one start node
(zero ⇒ "no start node"; more than one ⇒ "multiple start nodes"), at least
one end node, no duplicate node ids. -/
def workflowViolations (nodes : List FlowNode) : List WorkflowValidationError :=
  (if startCount nodes == 0 then [mkWorkflowError "workflow" msgNoStart] else []) ++
  (if startCount nodes > 1 then [mkWorkflowError "workflow" msgMultipleStart] else []) ++
  (if endCount nodes == 0 then [mkWorkflowError "workflow" msgNoEnd] else []) ++
  (duplicateIds nodes).map (fun i => mkWorkflowError i msgDuplicateId)

/-- Whether the node kind carries a required prompt (agent and end nodes). -/
def requiresPrompt (n : FlowNode) : Bool :=
  n.type == NodeTypeAgentNode || n.type == NodeTypeEndCall

/-- A valid extraction-variable type name (fixed enum of part_005). -/
def validTypeName (t : String) : Bool :=
  t == "string" || t == "number" || t == "boolean"

/-- Modelled from the spec: a syntactically valid absolute URL, approximated
as carrying an explicit http(s) scheme. -/
def isAbsoluteUrl (s : String) : Bool :=
  s.startsWith "http://" || s.startsWith "https://"

/-- Ids reachable from the start node by the breadth-first traversal. -/
def reachableIds (nodes : List FlowNode) (edges : List FlowEdge) : List String :=
  (levelsOf nodes edges).flatten

/-- Field-level and reachability violations of one node (§4.3): a non-blank
prompt for agent/end nodes unless marked static; a syntactically valid
absolute URL for webhook nodes; non-blank names and enum types for
extraction variables; and an individual flag when the node is neither start
nor global and is unreachable from start. -/
def perNodeViolations (nodes : List FlowNode) (edges : List FlowEdge)
    (n : FlowNode) : List WorkflowValidationError :=
  (if requiresPrompt n && n.data.prompt.trim == "" && !(n.data.is_static == some true)
   then [mkNodeError n.id "prompt" msgMissingPrompt] else []) ++
  (if n.type == NodeTypeWebhook && !(isAbsoluteUrl (n.data.endpoint_url.getD ""))
   then [mkNodeError n.id "url" msgInvalidUrl] else []) ++
  ((n.data.extraction_variables.getD []).filterMap (fun v =>
    if v.name.trim == "" || !(validTypeName v.type)
    then some (mkNodeError n.id "extraction_variables" msgBadVariable) else none)) ++
  (if !(n.type == NodeTypeStartCall) && !(n.type == NodeTypeGlobalNode)
      && !((reachableIds nodes edges).contains n.id)
   then [mkNodeError n.id "" msgUnreachable] else [])

/-- Violations of one edge (§4.3): dangling endpoints (source or target id
not present), and a non-empty condition when its source has more than one
outgoing edge. -/
def perEdgeViolations (nodes : List FlowNode) (edges : List FlowEdge)
    (e : FlowEdge) : List WorkflowValidationError :=
  (if !((nodeIds nodes).contains e.source) || !((nodeIds nodes).contains e.target)
   then [mkEdgeError e.id "" msgDanglingEdge] else []) ++
  (if (edges.filter (fun e2 => e2.source == e.source)).length > 1
      && e.data.condition.trim == ""
   then [mkEdgeError e.id "condition" msgEmptyCondition] else [])

/-- Insertion into a list sorted ascending by the key. -/
def insertByKey (key : α → String) (a : α) : List α → List α
  | [] => [a]
  | b :: bs => if key a ≤ key b then a :: b :: bs else b :: insertByKey key a bs

/-- Insertion sort ascending by a string key: the stable order §4.3 demands
for deterministic output. -/
def sortByKey (key : α → String) (l : List α) : List α :=
  l.foldr (insertByKey key) []

/-- Modelled from the spec: the validation engine (§4.3) — a pure function
`graph → list of violations`, returned in stable order: workflow-scope
first, then node-scope by node id ascending, then edge-scope by edge id
ascending. -/
def validateWorkflow (g : WorkflowDefinition) : List WorkflowValidationError :=
  workflowViolations g.nodes ++
  (sortByKey (fun n => n.id) g.nodes).flatMap (perNodeViolations g.nodes g.edges) ++
  (sortByKey (fun e => e.id) g.edges).flatMap (perEdgeViolations g.nodes g.edges)

/-! ## Dirty/Save orchestrator

Modelled from the spec (§4.5): the implementation (`useWorkflowState` and
its `saveWorkflow`) is not in the source tree.  States `{Clean, Dirty,
Saving}`; `Saving` records the snapshot taken at save start and the
"dirtied while saving" flag; outcomes of a completed persistence call are
surfaced to the caller. -/

/-- Orchestrator status: `Clean`, `Dirty`, or `Saving` with the snapshot
taken at save start and the "dirtied while saving" flag (§4.5). -/
inductive SaveStatus where
  | clean
  | dirty
  | saving (snapshot : WorkflowDefinition) (dirtiedWhileSaving : Bool)
deriving Repr, DecidableEq

/-- The orchestrator's state: the last persisted graph, the working graph,
and the save status. -/
structure OrchState where
  lastPersisted : WorkflowDefinition
  working : WorkflowDefinition
  status : SaveStatus
deriving Repr, DecidableEq

/-- Result of a completed persistence call, surfaced to the caller: success
(with the echoed graph) or failure (with the error) — distinguishable by
construction. -/
inductive SaveOutcome where
  | success (echoed : WorkflowDefinition)
  | failure (error : String)
deriving Repr, DecidableEq

/-- Events of the orchestrator: a graph-model mutation, an explicit save
request, and resolution of the in-flight persistence call. -/
inductive OrchEvent where
  | mutate (g : WorkflowDefinition)
  | saveRequest
  | saveSuccess (echoed : WorkflowDefinition)
  | saveFailure (error : String)
deriving Repr, DecidableEq

/-- Modelled from the spec: one orchestrator step (§4.5).
`Clean → Dirty` on mutation; `Dirty → Saving` on save request, snapshotting
`working` and firing exactly one persistence call; a save request while
`Saving` is rejected (no second in-flight call); `Saving → Clean` on
success (adopting the echoed graph, §6) unless dirtied while saving;
`Saving → Dirty` on failure with the error surfaced and `working`
untouched. -/
def orchStep (s : OrchState) (e : OrchEvent) : OrchState × Option SaveOutcome :=
  match e with
  | .mutate g =>
      match s.status with
      | .clean => ({ s with working := g, status := .dirty }, none)
      | .dirty => ({ s with working := g }, none)
      | .saving snap _ => ({ s with working := g, status := .saving snap true }, none)
  | .saveRequest =>
      match s.status with
      | .dirty => ({ s with status := .saving s.working false }, none)
      | _ => (s, none)
  | .saveSuccess echoed =>
      match s.status with
      | .saving _ d =>
          ({ s with
              lastPersisted := echoed
              working := if d then s.working else echoed
              status := if d then .dirty else .clean },
            some (.success echoed))
      | _ => (s, none)
  | .saveFailure err =>
      match s.status with
      | .saving _ _ => ({ s with status := .dirty }, some (.failure err))
      | _ => (s, none)

/-- The dirty flag the orchestrator exposes: set in `Dirty`, and while
`Saving` exactly when the graph was dirtied again during the in-flight
save. -/
def orchDirty (s : OrchState) : Bool :=
  match s.status with
  | .clean => false
  | .dirty => true
  | .saving _ d => d

/-- Run the orchestrator over a list of events, discarding outcomes. -/
def orchRun (s : OrchState) (es : List OrchEvent) : OrchState :=
  es.foldl (fun s e => (orchStep s e).1) s

/-! ## Editor dirty-state machine (RenderWorkflow.tsx)

The Tidy Up transition is the code of RenderWorkflow.tsx lines 333-336:
`setNodes(layoutNodes(nodes, edges, 'TB', rfInstance)); setIsDirty(true)` —
the dirty flag is set unconditionally.  The remaining transitions follow
the spec: every mutation marks the graph dirty; on save success
`lastPersisted := working` and the dirty flag clears. -/

/-- The editor state read by the header: the last persisted graph, the
working graph, and the `isDirty` flag. -/
structure EditorState where
  lastPersisted : WorkflowDefinition
  working : WorkflowDefinition
  dirty : Bool
deriving Repr, DecidableEq

/-- Editor events: the Tidy Up button, an arbitrary graph mutation, and
resolution of a save. -/
inductive EditorEvent where
  | tidyUp
  | mutate (g : WorkflowDefinition)
  | saveSuccess
  | saveFailure
deriving Repr, DecidableEq

/-- One editor step.  `tidyUp` is RenderWorkflow.tsx lines 333-336: the
nodes are replaced by `layoutNodes nodes edges` and `isDirty` is set to
`true` unconditionally. -/
def editorStep (s : EditorState) (e : EditorEvent) : EditorState :=
  match e with
  | .tidyUp =>
      { s with
        working := { s.working with nodes := layoutNodes s.working.nodes s.working.edges }
        dirty := true }
  | .mutate g => { s with working := g, dirty := true }
  | .saveSuccess => { lastPersisted := s.working, working := s.working, dirty := false }
  | .saveFailure => { s with dirty := true }

/-- Run the editor machine over a list of events. -/
def editorRun (s : EditorState) (es : List EditorEvent) : EditorState :=
  es.foldl editorStep s

/-- The editor state right after loading a persisted graph: working equals
the persisted snapshot, not dirty. -/
def editorInit (g : WorkflowDefinition) : EditorState :=
  { lastPersisted := g, working := g, dirty := false }

/-! ## Concrete demonstration graphs -/

/-- A two-node demonstration graph: start node `s`, end node `e`, one edge
`s → e` with condition "always". -/
def demoGraph : WorkflowDefinition :=
  { nodes :=
      [ { id := "s", type := NodeTypeStartCall
          position := { x := 0, y := 0 }
          data := { prompt := "Greet the caller", name := "Start", is_start := some true } }
      , { id := "e", type := NodeTypeEndCall
          position := { x := 0, y := 100 }
          data := { prompt := "Say goodbye", name := "End", is_end := some true } } ]
    edges :=
      [ { id := "se", source := "s", target := "e"
          data := { condition := "always", label := "always" } } ]
    viewport := { x := 0, y := 0, zoom := 1 } }

/-- A graph with two `start`-kind nodes and one end node. -/
def twoStartGraph : WorkflowDefinition :=
  { nodes :=
      [ { id := "s1", type := NodeTypeStartCall
          position := { x := 0, y := 0 }
          data := { prompt := "Hi", name := "Start 1", is_start := some true } }
      , { id := "s2", type := NodeTypeStartCall
          position := { x := 250, y := 0 }
          data := { prompt := "Hi", name := "Start 2", is_start := some true } }
      , { id := "e", type := NodeTypeEndCall
          position := { x := 0, y := 150 }
          data := { prompt := "Bye", name := "End", is_end := some true } } ]
    edges :=
      [ { id := "s1e", source := "s1", target := "e"
          data := { condition := "always", label := "always" } } ]
    viewport := { x := 0, y := 0, zoom := 1 } }

/-! ## Theorems -/

/-- C1: For every editor state, the run/call action is enabled if and only
if the graph is not dirty and the validation-violation list is empty; the
boolean `!isCallDisabled` exposed to the Call button of part_011 equals
`!dirty && violations.length == 0`. -/
theorem call_enabled_iff_clean_and_valid :
    ∀ (isDirty : Bool) (errs : List WorkflowValidationError),
      ((!(isCallDisabled isDirty errs)) = (!isDirty && errs.length == 0)) ∧
      (isCallDisabled isDirty errs = false ↔ isDirty = false ∧ errs.length = 0) := by
  intro d errs
  constructor
  · cases d <;> cases errs <;> simp [isCallDisabled, hasValidationErrors]
  · cases d <;> cases errs <;> simp [isCallDisabled, hasValidationErrors]

/-- C4: Deleting a node present in the graph also removes every edge whose
source or target equals that id; after the delete, no edge referencing the
deleted node remains. -/
theorem deleteNode_no_dangling_edges :
    ∀ (g : WorkflowDefinition) (id : String), id ∈ nodeIds g.nodes →
      ∀ e ∈ (deleteNode g id).edges, e.source ≠ id ∧ e.target ≠ id := by
  intro g id _ e he
  simp only [deleteNode, List.mem_filter, Bool.and_eq_true, bne_iff_ne, ne_eq] at he
  exact ⟨he.2.1, he.2.2⟩

/-- C4 witness: `"s"` is a node id of the demonstration graph, and no edge
of `deleteNode demoGraph "s"` references it. -/
theorem deleteNode_no_dangling_edges_witness :
    "s" ∈ nodeIds demoGraph.nodes ∧
    ∀ e ∈ (deleteNode demoGraph "s").edges, e.source ≠ "s" ∧ e.target ≠ "s" :=
  ⟨by decide, deleteNode_no_dangling_edges demoGraph "s" (by decide)⟩

/-- C9: Saving the End Call edit dialog always writes
`allow_interrupt = false` into the node data, for every prior data value and
every form input, while the other edited fields are written as entered. -/
theorem endCall_save_forces_allow_interrupt_false :
    ∀ (data : FlowNodeData) (form : EndCallForm),
      (endCallHandleSave data form).allow_interrupt = some false ∧
      (endCallHandleSave data form).prompt = form.prompt ∧
      (endCallHandleSave data form).name = form.name ∧
      (endCallHandleSave data form).extraction_enabled = some form.extractionEnabled ∧
      (endCallHandleSave data form).extraction_prompt = some form.extractionPrompt ∧
      (endCallHandleSave data form).extraction_variables = some form.extractionVariables ∧
      (endCallHandleSave data form).call_tags_enabled = some form.callTagsEnabled ∧
      (endCallHandleSave data form).call_tags_prompt = some form.callTagsPrompt ∧
      (endCallHandleSave data form).add_global_prompt = some form.addGlobalPrompt :=
  fun _ _ => ⟨rfl, rfl, rfl, rfl, rfl, rfl, rfl, rfl, rfl⟩

/-- C10: The `initialFlow` the workflow detail page passes to the canvas
always carries viewport `{x := 0, y := 0, zoom := 0}`, for every persisted
viewport, while nodes and edges are taken from the persisted definition. -/
theorem detail_page_viewport_always_zero :
    ∀ (w : WorkflowResponse),
      (workflowDetailInitialFlow w).viewport = { x := 0, y := 0, zoom := 0 } ∧
      (workflowDetailInitialFlow w).nodes = w.workflow_definition.nodes ∧
      (workflowDetailInitialFlow w).edges = w.workflow_definition.edges :=
  fun _ => ⟨rfl, rfl, rfl⟩

/-- Helper: one header step preserves the in-flight accounting invariant
`inFlight = if savingWorkflow then 1 else 0`. -/
theorem headerStep_inFlight_invariant (s : HeaderState) (e : HeaderEvent)
    (h : s.inFlight = if s.savingWorkflow then 1 else 0) :
    (headerStep s e).inFlight = if (headerStep s e).savingWorkflow then 1 else 0 := by
  cases e with
  | clickSave =>
      simp only [headerStep]
      split
      · exact h
      · next hdis =>
          have hs : s.savingWorkflow = false := by
            cases hsw : s.savingWorkflow
            · rfl
            · exact absurd (by simp [isSaveDisabled, hsw]) hdis
          rw [hs] at h
          simp at h
          simp [h]
  | saveResolved =>
      simp only [headerStep]
      split
      · next hsw =>
          rw [hsw] at h
          simp at h
          simp [h]
      · next hsw =>
          have hs : s.savingWorkflow = false := by
            cases hsw2 : s.savingWorkflow
            · rfl
            · exact absurd hsw2 hsw
          rw [hs] at h
          simpa using h
  | dirtyChange b => simpa [headerStep] using h

/-- Helper: the in-flight accounting invariant holds along every run of the
header machine. -/
theorem headerRun_inFlight_invariant (es : List HeaderEvent) :
    ∀ (s : HeaderState), s.inFlight = (if s.savingWorkflow then 1 else 0) →
      (headerRun s es).inFlight = if (headerRun s es).savingWorkflow then 1 else 0 := by
  induction es with
  | nil => exact fun _ h => h
  | cons e es ih =>
      intro s h
      rw [headerRun, List.foldl_cons]
      exact ih (headerStep s e) (headerStep_inFlight_invariant s e h)

/-- C2: Along every sequence of save requests and resolutions from the
header's initial state, at most one persistence call is ever in flight;
moreover a save click while `savingWorkflow` holds is a no-op (the Save
button is disabled), so it never starts a second concurrent call. -/
theorem at_most_one_save_in_flight :
    (∀ (s : HeaderState), s.savingWorkflow = true → headerStep s .clickSave = s) ∧
    (∀ (d : Bool) (es : List HeaderEvent), (headerRun (headerInit d) es).inFlight ≤ 1) := by
  constructor
  · intro s h
    simp [headerStep, isSaveDisabled, h]
  · intro d es
    have h := headerRun_inFlight_invariant es (headerInit d) (by simp [headerInit])
    rw [h]
    split <;> simp

/-- C2 witness: in a concrete saving state a save click changes nothing, and
the concrete run click-resolve-click keeps at most one call in flight. -/
theorem at_most_one_save_in_flight_witness :
    (headerStep { isDirty := true, savingWorkflow := true, inFlight := 1 } .clickSave =
      { isDirty := true, savingWorkflow := true, inFlight := 1 }) ∧
    (headerRun (headerInit true) [.clickSave, .clickSave, .saveResolved, .clickSave]).inFlight ≤ 1 :=
  ⟨at_most_one_save_in_flight.1 { isDirty := true, savingWorkflow := true, inFlight := 1 } rfl,
   at_most_one_save_in_flight.2 true [.clickSave, .clickSave, .saveResolved, .clickSave]⟩

/-- Helper: one editor step preserves "clean implies working equals
last persisted". -/
theorem editorStep_clean_sync (s : EditorState) (e : EditorEvent)
    (_h : s.dirty = false → s.working = s.lastPersisted) :
    (editorStep s e).dirty = false →
      (editorStep s e).working = (editorStep s e).lastPersisted := by
  cases e <;> simp [editorStep]

/-- Helper: "clean implies working equals last persisted" holds along every
run of the editor machine. -/
theorem editorRun_clean_sync (es : List EditorEvent) :
    ∀ (s : EditorState), (s.dirty = false → s.working = s.lastPersisted) →
      (editorRun s es).dirty = false →
        (editorRun s es).working = (editorRun s es).lastPersisted := by
  induction es with
  | nil => exact fun _ h => h
  | cons e es ih =>
      intro s h
      rw [editorRun, List.foldl_cons]
      exact ih (editorStep s e) (editorStep_clean_sync s e h)

/-- C6 counterexample: a reachable editor state with `dirty = true` whose
working graph deep-equals the last persisted graph — obtained by Tidy Up,
save, Tidy Up again (layout is idempotent, yet RenderWorkflow.tsx lines
333-336 set the dirty flag unconditionally).  This refutes "dirty is true
exactly when the working graph deep-differs from the last persisted
graph". -/
theorem tidyup_dirty_without_difference :
    (editorRun (editorInit demoGraph) [.tidyUp, .saveSuccess, .tidyUp]).dirty = true ∧
    (editorRun (editorInit demoGraph) [.tidyUp, .saveSuccess, .tidyUp]).working =
      (editorRun (editorInit demoGraph) [.tidyUp, .saveSuccess, .tidyUp]).lastPersisted := by
  exact ⟨rfl, by decide⟩

/-- C6 amended: at every reachable editor state, a clear dirty flag
guarantees the working graph deep-equals the last persisted graph; the
converse fails, since operations such as Tidy Up set the dirty flag
unconditionally even when they leave the graph deep-equal. -/
theorem clean_state_implies_graphs_equal :
    ∀ (g : WorkflowDefinition) (es : List EditorEvent),
      (editorRun (editorInit g) es).dirty = false →
        (editorRun (editorInit g) es).working =
          (editorRun (editorInit g) es).lastPersisted := by
  intro g es
  exact editorRun_clean_sync es (editorInit g) (fun _ => rfl)

/-- C6 witness: after a tidy-up followed by a successful save, the state is
clean and the graphs coincide. -/
theorem clean_state_implies_graphs_equal_witness :
    (editorRun (editorInit demoGraph) [.tidyUp, .saveSuccess]).dirty = false ∧
    (editorRun (editorInit demoGraph) [.tidyUp, .saveSuccess]).working =
      (editorRun (editorInit demoGraph) [.tidyUp, .saveSuccess]).lastPersisted :=
  ⟨rfl, clean_state_implies_graphs_equal demoGraph [.tidyUp, .saveSuccess] rfl⟩

/-- C3 counterexample: a save started on the working graph `demoGraph`, a
mutation to `twoStartGraph` while the save is in flight, then a persistence
failure — the working graph after the failure differs from its value at the
moment the save started, so the claim as stated is false at this input. -/
theorem working_after_failure_differs_from_save_start :
    (orchRun
        { lastPersisted := demoGraph, working := demoGraph, status := .clean }
        [.mutate twoStartGraph, .saveRequest, .mutate demoGraph, .saveFailure "boom"]).working ≠
      (orchRun
        { lastPersisted := demoGraph, working := demoGraph, status := .clean }
        [.mutate twoStartGraph, .saveRequest]).working := by
  decide

/-- C3 amended: a persistence failure itself changes no field of the working
graph (no automatic revert) — it equals byte-for-byte its value immediately
before the failure, and hence the save-start snapshot whenever no mutation
occurred during the in-flight save; the dirty flag is true afterwards; and
the failure is surfaced as an outcome distinguishable from success. -/
theorem save_failure_preserves_working_graph :
    ∀ (s : OrchState) (snap : WorkflowDefinition) (d : Bool) (err : String),
      s.status = .saving snap d →
      (orchStep s (.saveFailure err)).1.working = s.working ∧
      orchDirty (orchStep s (.saveFailure err)).1 = true ∧
      (orchStep s (.saveFailure err)).2 = some (.failure err) ∧
      (∀ echoed, (orchStep s (.saveFailure err)).2 ≠ some (.success echoed)) ∧
      (s.working = snap → (orchStep s (.saveFailure err)).1.working = snap) := by
  intro s snap d err h
  have hstep : orchStep s (.saveFailure err) =
      ({ s with status := .dirty }, some (.failure err)) := by
    simp [orchStep, h]
  rw [hstep]
  refine ⟨rfl, rfl, rfl, ?_, fun hw => hw⟩
  intro echoed hcontra
  exact SaveOutcome.noConfusion (Option.some.inj hcontra)

/-- C3 amended witness: a concrete in-flight save over the demonstration
graph that fails with an error. -/
theorem save_failure_preserves_working_graph_witness :
    ({ lastPersisted := demoGraph, working := demoGraph
       status := .saving demoGraph false } : OrchState).status = .saving demoGraph false ∧
    (orchStep
        { lastPersisted := demoGraph, working := demoGraph, status := .saving demoGraph false }
        (.saveFailure "network error")).1.working = demoGraph :=
  ⟨rfl,
    (save_failure_preserves_working_graph
      { lastPersisted := demoGraph, working := demoGraph, status := .saving demoGraph false }
      demoGraph false "network error" rfl).1⟩

/-- Helper: position assignment preserves the list of node ids. -/
theorem applyLayout_map_id (p : String → Position) (ns : List FlowNode) :
    (applyLayout p ns).map (fun n => n.id) = ns.map (fun n => n.id) := by
  rw [applyLayout, List.map_map]
  rfl

/-- Helper: position assignment preserves the number of nodes. -/
theorem applyLayout_length (p : String → Position) (ns : List FlowNode) :
    (applyLayout p ns).length = ns.length := by
  simp [applyLayout]

/-- Helper: position assignment preserves which node is found as the start
node. -/
theorem applyLayout_find_start (p : String → Position) (ns : List FlowNode) :
    ((applyLayout p ns).find? (fun n => n.type == NodeTypeStartCall)).map (fun n => n.id) =
      (ns.find? (fun n => n.type == NodeTypeStartCall)).map (fun n => n.id) := by
  rw [applyLayout, List.find?_map, Option.map_map]
  rfl

/-- Helper: a second position assignment overwrites the first. -/
theorem applyLayout_applyLayout (p q : String → Position) (ns : List FlowNode) :
    applyLayout p (applyLayout q ns) = applyLayout p ns := by
  rw [applyLayout, applyLayout, applyLayout, List.map_map]
  apply List.map_congr_left
  intro a _
  rfl

/-- Helper: the BFS layers of a laid-out graph equal those of the original
graph, since layout changes neither ids, nor the start node, nor the
edges. -/
theorem levelsOf_layout (ns : List FlowNode) (es : List FlowEdge) :
    levelsOf (layoutNodes ns es) es = levelsOf ns es := by
  unfold levelsOf layoutNodes
  rw [applyLayout_find_start, applyLayout_length]

/-- Helper: layout is idempotent on whole node lists. -/
theorem layoutNodes_idem (ns : List FlowNode) (es : List FlowEdge) :
    layoutNodes (layoutNodes ns es) es = layoutNodes ns es := by
  have h1 : layoutNodes (layoutNodes ns es) es =
      applyLayout
        (layoutPos ((layoutNodes ns es).map (fun m => m.id)) (levelsOf (layoutNodes ns es) es))
        (layoutNodes ns es) := rfl
  have h2 : (layoutNodes ns es).map (fun m => m.id) = ns.map (fun m => m.id) :=
    applyLayout_map_id _ ns
  rw [h1, h2, levelsOf_layout]
  have h3 : layoutNodes ns es =
      applyLayout (layoutPos (ns.map (fun m => m.id)) (levelsOf ns es)) ns := rfl
  rw [h3, applyLayout_applyLayout]

/-- C5: The layout function is deterministic — identical graph input yields
identical output — and idempotent on positions: laying out its own output
assigns every node the same position as the first application. -/
theorem layout_deterministic_and_idempotent :
    (∀ (nsa nsb : List FlowNode) (esa esb : List FlowEdge),
        nsa = nsb → esa = esb → layoutNodes nsa esa = layoutNodes nsb esb) ∧
    (∀ (ns : List FlowNode) (es : List FlowEdge),
        (layoutNodes (layoutNodes ns es) es).map (fun n => (n.id, n.position)) =
          (layoutNodes ns es).map (fun n => (n.id, n.position))) := by
  constructor
  · intro nsa nsb esa esb h1 h2
    rw [h1, h2]
  · intro ns es
    rw [layoutNodes_idem]

/-- C5 witness: determinism and idempotence at the demonstration graph. -/
theorem layout_deterministic_and_idempotent_witness :
    layoutNodes demoGraph.nodes demoGraph.edges = layoutNodes demoGraph.nodes demoGraph.edges ∧
    (layoutNodes (layoutNodes demoGraph.nodes demoGraph.edges) demoGraph.edges).map
        (fun n => (n.id, n.position)) =
      (layoutNodes demoGraph.nodes demoGraph.edges).map (fun n => (n.id, n.position)) :=
  ⟨layout_deterministic_and_idempotent.1 demoGraph.nodes demoGraph.nodes
      demoGraph.edges demoGraph.edges rfl rfl,
   layout_deterministic_and_idempotent.2 demoGraph.nodes demoGraph.edges⟩

/-- Helper: every node-scope violation carries one of the four node-rule
messages (and in particular never the "multiple start nodes" message). -/
theorem mem_perNodeViolations_message (ns : List FlowNode) (es : List FlowEdge)
    (n : FlowNode) (v : WorkflowValidationError) (hv : v ∈ perNodeViolations ns es n) :
    v.message = msgMissingPrompt ∨ v.message = msgInvalidUrl ∨
      v.message = msgBadVariable ∨ v.message = msgUnreachable := by
  simp only [perNodeViolations, List.mem_append] at hv
  rcases hv with ((h | h) | h) | h
  · left
    split at h
    · simp only [List.mem_singleton] at h
      rw [h]
      rfl
    · simp at h
  · right; left
    split at h
    · simp only [List.mem_singleton] at h
      rw [h]
      rfl
    · simp at h
  · right; right; left
    rcases List.mem_filterMap.mp h with ⟨a, _, ha⟩
    split at ha
    · rw [← Option.some.inj ha]
      rfl
    · exact Option.noConfusion ha
  · right; right; right
    split at h
    · simp only [List.mem_singleton] at h
      rw [h]
      rfl
    · simp at h

/-- Helper: every edge-scope violation carries one of the two edge-rule
messages. -/
theorem mem_perEdgeViolations_message (ns : List FlowNode) (es : List FlowEdge)
    (e : FlowEdge) (v : WorkflowValidationError) (hv : v ∈ perEdgeViolations ns es e) :
    v.message = msgDanglingEdge ∨ v.message = msgEmptyCondition := by
  simp only [perEdgeViolations, List.mem_append] at hv
  rcases hv with h | h
  · left
    split at h
    · simp only [List.mem_singleton] at h
      rw [h]
      rfl
    · simp at h
  · right
    split at h
    · simp only [List.mem_singleton] at h
      rw [h]
      rfl
    · simp at h

/-- Helper: with exactly two start-kind nodes the workflow-scope violations
contain the "multiple start nodes" violation exactly once. -/
theorem countP_workflowViolations_two_start (ns : List FlowNode)
    (h : startCount ns = 2) :
    (workflowViolations ns).countP (fun v => v.message == msgMultipleStart) = 1 := by
  simp only [workflowViolations, h, List.countP_append]
  have hdup : ((duplicateIds ns).map (fun i => mkWorkflowError i msgDuplicateId)).countP
      (fun v => v.message == msgMultipleStart) = 0 := by
    rw [List.countP_map]
    apply List.countP_eq_zero.mpr
    intro a _
    show ¬((msgDuplicateId == msgMultipleStart) = true)
    decide
  rw [hdup]
  have hend : (if endCount ns == 0 then [mkWorkflowError "workflow" msgNoEnd] else []).countP
      (fun v => v.message == msgMultipleStart) = 0 := by
    split
    · decide
    · rfl
  rw [hend]
  decide

/-- C8: Every validation violation produced for a graph is a record whose
scope is one of node, edge, or workflow; its target id, field, and message
are strings by the `WorkflowValidationError` type of part_005 (the spec
renders an absent field as `null`, which the code represents as the string
type's empty value). -/
theorem violation_records_wellformed :
    ∀ (g : WorkflowDefinition) (v : WorkflowValidationError),
      v ∈ validateWorkflow g →
        (v.kind = ErrorKind.node ∨ v.kind = ErrorKind.edge ∨ v.kind = ErrorKind.workflow) := by
  intro g v _
  rcases v with ⟨k, i, f, m⟩
  cases k
  · exact Or.inl rfl
  · exact Or.inr (Or.inl rfl)
  · exact Or.inr (Or.inr rfl)

/-- C8 witness: the "no start node" violation of the empty graph is a
validation result and carries one of the three scopes. -/
theorem violation_records_wellformed_witness :
    mkWorkflowError "workflow" msgNoStart ∈
      validateWorkflow { nodes := [], edges := [], viewport := { x := 0, y := 0, zoom := 0 } } ∧
    ((mkWorkflowError "workflow" msgNoStart).kind = ErrorKind.node ∨
      (mkWorkflowError "workflow" msgNoStart).kind = ErrorKind.edge ∨
      (mkWorkflowError "workflow" msgNoStart).kind = ErrorKind.workflow) :=
  ⟨by decide,
   violation_records_wellformed
     { nodes := [], edges := [], viewport := { x := 0, y := 0, zoom := 0 } }
     (mkWorkflowError "workflow" msgNoStart) (by decide)⟩

/-- C7: Validating a graph with zero nodes returns exactly the two
structural violations "no start node" and "no end node"; validating any
graph with exactly two start-kind nodes yields exactly one "multiple start
nodes" violation. -/
theorem validation_empty_and_two_start :
    (∀ (vp : Viewport),
        validateWorkflow { nodes := [], edges := [], viewport := vp } =
          [mkWorkflowError "workflow" msgNoStart, mkWorkflowError "workflow" msgNoEnd]) ∧
    (∀ (g : WorkflowDefinition), startCount g.nodes = 2 →
        (validateWorkflow g).countP (fun v => v.message == msgMultipleStart) = 1) := by
  constructor
  · intro vp
    rfl
  · intro g h
    simp only [validateWorkflow, List.countP_append]
    rw [countP_workflowViolations_two_start g.nodes h]
    have hn : ((sortByKey (fun n => n.id) g.nodes).flatMap
        (perNodeViolations g.nodes g.edges)).countP
          (fun v => v.message == msgMultipleStart) = 0 := by
      apply List.countP_eq_zero.mpr
      intro v hv
      rcases List.mem_flatMap.mp hv with ⟨n, _, hvn⟩
      rcases mem_perNodeViolations_message g.nodes g.edges n v hvn with
        h1 | h1 | h1 | h1 <;> simp only [h1] <;> decide
    have he : ((sortByKey (fun e => e.id) g.edges).flatMap
        (perEdgeViolations g.nodes g.edges)).countP
          (fun v => v.message == msgMultipleStart) = 0 := by
      apply List.countP_eq_zero.mpr
      intro v hv
      rcases List.mem_flatMap.mp hv with ⟨e, _, hve⟩
      rcases mem_perEdgeViolations_message g.nodes g.edges e v hve with
        h1 | h1 <;> simp only [h1] <;> decide
    rw [hn, he]

/-- C7 witness: the concrete empty graph and the concrete two-start graph. -/
theorem validation_empty_and_two_start_witness :
    validateWorkflow { nodes := [], edges := [], viewport := { x := 0, y := 0, zoom := 0 } } =
      [mkWorkflowError "workflow" msgNoStart, mkWorkflowError "workflow" msgNoEnd] ∧
    startCount twoStartGraph.nodes = 2 ∧
    (validateWorkflow twoStartGraph).countP (fun v => v.message == msgMultipleStart) = 1 :=
  ⟨validation_empty_and_two_start.1 { x := 0, y := 0, zoom := 0 },
   by decide,
   validation_empty_and_two_start.2 twoStartGraph (by decide)⟩

end Dograh
